import Mathlib

/-!
Shallow embedding of `src/form-persistence.ts` (the single source file of the
repository): a browser form-persistence library.  DOM forms are modelled as a
list of elements; the serialized record (`FormData` in the source) is an
association list from field name to the ordered list of captured values,
mirroring a JS object's insertion-ordered string keys.  JS values that can be
captured (strings and booleans) are the inductive `Val`; JS truthiness and
string coercion are modelled explicitly where the source relies on them.
-/

namespace Persistorm

/-- A captured JS value: the serializer only ever stores strings and booleans. -/
inductive Val where
  | str (s : String)
  | bool (b : Bool)
deriving DecidableEq, Repr

/-- An `<option>` inside a `<select>`: a value and its selected flag. -/
structure Opt where
  value : String
  selected : Bool
deriving DecidableEq, Repr

/-- The tag of a form element as tested by the source (`element.tagName`).
`other` covers tags in `form.elements` the source never matches (e.g. BUTTON). -/
inductive Tag where
  | input
  | textarea
  | select
  | other
deriving DecidableEq, Repr

/-- A form element: tag, `type` attribute (meaningful for inputs), `name`,
current `value`, `checked` flag (checkbox/radio), `multiple` flag and
`options` list (select). -/
structure Element where
  tag : Tag
  type : String
  name : String
  value : String
  checked : Bool
  multiple : Bool
  options : List Opt
deriving DecidableEq, Repr

/-- A form: its `id` attribute and its ordered element collection
(`form.elements`). -/
structure Form where
  id : String
  elements : List Element
deriving DecidableEq, Repr

/-- The serialized record (interface `FormData` in the source): a JS object
mapping field names to arrays of values, modelled as an insertion-ordered
association list with unique keys. -/
abbrev FormData := List (String × List Val)

/-- JS property read `dict[key]` on the record: first (only) binding. -/
def lookupFD (dict : FormData) (key : String) : Option (List Val) :=
  match dict.find? (fun p => p.1 == key) with
  | some p => some p.2
  | none => none

/-- JS `key in dict`. -/
def hasKey (dict : FormData) (key : String) : Bool :=
  (lookupFD dict key).isSome

/-- JS truthiness of a captured value (`''` and `false` are falsy). -/
def truthy : Val → Bool
  | .str s => !(s == "")
  | .bool b => b

/-- JS string coercion of a captured value (as produced by assigning it to a
DOM string property). -/
def valToStr : Val → String
  | .str s => s
  | .bool b => if b then "true" else "false"

/-- `values[index]` coerced to a string: out-of-range access yields
`undefined`, which stringifies to "undefined". -/
def getStr (values : List Val) (index : Nat) : String :=
  match values.get? index with
  | some v => valToStr v
  | none => "undefined"

/-- JS `values.includes(s)` where `s` is a string: SameValueZero equality, so
only string entries can match. -/
def includesStr (values : List Val) (s : String) : Bool :=
  values.any fun v =>
    match v with
    | .str t => t == s
    | .bool _ => false

/-- Configuration record, mirroring `FormPersistenceOptions` with the defaults
each operation spreads in.  `include`/`exclude` are named `incl`/`excl` here. -/
structure Config where
  uuid : Option String := none
  useSessionStorage : Bool := false
  saveOnSubmit : Bool := false
  valueFunctions : Option (List (String × (Form → Val → Form))) := none
  incl : List String := []
  excl : List String := []
  includeFilter : Option (Element → Bool) := none
  excludeFilter : Option (Element → Bool) := none

/-- Source `pushToArray(dict, key, value)`: skip empty-string values
(`value === ''` is true only for the string `''`), otherwise append to the
key's array, creating it if absent. -/
def pushToArray (dict : FormData) (key : String) (value : Val) : FormData :=
  if value = .str "" then dict
  else if hasKey dict key then
    dict.map fun p => if p.1 == key then (p.1, p.2 ++ [value]) else p
  else
    dict ++ [(key, [value])]

/-- Source `isNameFiltered(name, include, exclude)`: empty names are filtered;
`exclude` membership filters; a non-empty `include` not containing the name
filters. -/
def isNameFiltered (name : String) (incl excl : List String) : Bool :=
  if name == "" then true
  else if excl.contains name then true
  else if !incl.isEmpty && !incl.contains name then true
  else false

/-- Source `isElementFiltered(element, includeFilter, excludeFilter)`:
a matching `excludeFilter` filters; otherwise a present, non-matching
`includeFilter` filters. -/
def isElementFiltered (e : Element)
    (includeFilter excludeFilter : Option (Element → Bool)) : Bool :=
  if (match excludeFilter with | some f => f e | none => false) then true
  else if (match includeFilter with | some f => !f e | none => false) then true
  else false

/-- `select.value` getter for a single select: the value of the first selected
option, or `""` when none is selected. -/
def selectedValue (options : List Opt) : String :=
  match options.find? (fun o => o.selected) with
  | some o => o.value
  | none => ""

/-- `element.tagName === 'INPUT' && (type === 'password' || type === 'file')`:
the unconditional skip at the top of the serializer loop. -/
def isSecretOrFile (e : Element) : Bool :=
  e.tag == .input && (e.type == "password" || e.type == "file")

/-- One iteration of the serializer loop body for element `e` over the
accumulated record `data` (source `serialize`, lines 72-121). -/
def serializeElement (cfg : Config) (data : FormData) (e : Element) : FormData :=
  if isSecretOrFile e then data
  else if isNameFiltered e.name cfg.incl cfg.excl ||
      isElementFiltered e cfg.includeFilter cfg.excludeFilter then data
  else
    match e.tag with
    | .input =>
      if e.type == "radio" then
        if e.checked then pushToArray data e.name (.str e.value) else data
      else if e.type == "checkbox" then
        pushToArray data e.name (.bool e.checked)
      else
        pushToArray data e.name (.str e.value)
    | .textarea => pushToArray data e.name (.str e.value)
    | .select =>
      if e.multiple then
        e.options.foldl
          (fun d o => if o.selected then pushToArray d e.name (.str o.value) else d)
          data
      else
        pushToArray data e.name (.str (selectedValue e.options))
    | .other => data

/-- Source `serialize(form, options)`: fold the loop body over the form's
elements in document order, starting from the empty record. -/
def serialize (form : Form) (cfg : Config) : FormData :=
  form.elements.foldl (serializeElement cfg) []

/-- The single-select `value` setter: select the first option whose value
matches the assigned string, deselect every other option (no option selected
when none matches). -/
def setOptsValue : List Opt → String → List Opt
  | [], _ => []
  | o :: rest, s =>
    if o.value == s then
      { o with selected := true } :: rest.map (fun r => { r with selected := false })
    else
      { o with selected := false } :: setOptsValue rest s

/-- Source `applyValues(element, values, index)`: write the stored values back
onto one element.  Radio: checked iff its own value strictly equals
`values[0]` (a boolean or `undefined` never strict-equals a string).
Checkbox: `checked = values[index]` with JS truthiness (`undefined` when out of
range is falsy).  Text input / textarea: `value = values[index]` with string
coercion.  Multi-select: each option selected iff `values.includes` its value.
Single select: assignment through the `value` setter (`setOptsValue`). -/
def applyValues (e : Element) (values : List Val) (index : Nat) : Element :=
  match e.tag with
  | .input =>
    if e.type == "radio" then
      { e with checked :=
          match values.get? 0 with
          | some (.str s) => e.value == s
          | _ => false }
    else if e.type == "checkbox" then
      { e with checked :=
          match values.get? index with
          | some v => truthy v
          | none => false }
    else
      { e with value := getStr values index }
  | .textarea => { e with value := getStr values index }
  | .select =>
    if e.multiple then
      { e with options :=
          e.options.map fun o => { o with selected := includesStr values o.value } }
    else
      { e with options := setOptsValue e.options (getStr values index) }
  | .other => e

/-- The inner `inputs.forEach((input, i) => applyValues(input, data[name], i))`
of the generic deserializer: walk the element list in document order, applying
`applyValues` to each element whose `name` matches and that passes the element
filter, with `i` counting only the matching elements. -/
def applyToMatching (name : String) (values : List Val)
    (includeFilter excludeFilter : Option (Element → Bool)) :
    List Element → Nat → List Element
  | [], _ => []
  | e :: rest, i =>
    if e.name == name && !isElementFiltered e includeFilter excludeFilter then
      applyValues e values i ::
        applyToMatching name values includeFilter excludeFilter rest (i + 1)
    else
      e :: applyToMatching name values includeFilter excludeFilter rest i

/-- A handler invocation trace entry: the field name and the single value the
handler was called with (the handler also receives the form; its side effects
are modelled by the `Form → Val → Form` handler itself). -/
abbrev HTrace := List (String × Val)

/-- Source `applySpecialHandlers(data, form, options)` as its body is written:
iterate the handler table in key order; for each name also present in the
record and not name-filtered by `options.include`/`options.exclude`, invoke
the handler once per value in the record's sequence and record the name as
specially handled.  Returns (handled names, form after handler side effects,
invocation trace). -/
def applySpecialHandlers (data : FormData) (form : Form) (options : Config) :
    List String × Form × HTrace :=
  match options.valueFunctions with
  | none => ([], form, [])
  | some vfs =>
    vfs.foldl
      (fun acc p =>
        match lookupFD data p.1 with
        | some vs =>
          if isNameFiltered p.1 options.incl options.excl then acc
          else
            let ft := vs.foldl
              (fun (ft : Form × HTrace) v => (p.2 ft.1 v, ft.2 ++ [(p.1, v)]))
              (acc.2.1, acc.2.2)
            (acc.1 ++ [p.1], ft.1, ft.2)
        | none => acc)
      ([], form, [])

/-- The call site bug at source line 182: `deserialize` passes
`config.valueFunctions` (the raw handler table) where `applySpecialHandlers`
declares an options record.  At runtime the table's `.valueFunctions`,
`.include` and `.exclude` properties are all `undefined` (the table maps field
names to handler functions, and even a key literally named "valueFunctions"
would hold a function, whose `for...in` enumeration is empty), so the callee's
`if (!options.valueFunctions) return []` guard fires and no handler ever runs.
This definition models the options record the callee observes. -/
def coerceTableToOptions (_vfs : List (String × (Form → Val → Form))) : Config :=
  { valueFunctions := none, incl := [], excl := [] }

/-- The generic per-name loop of `deserialize` (source lines 185-204): for each
record key in insertion order, skip name-filtered keys and specially handled
keys, otherwise apply the values to the matching, unfiltered elements. -/
def deserializeGeneric (data : FormData) (handled : List String) (cfg : Config)
    (es : List Element) : List Element :=
  data.foldl
    (fun acc p =>
      if isNameFiltered p.1 cfg.incl cfg.excl then acc
      else if handled.contains p.1 then acc
      else applyToMatching p.1 p.2 cfg.includeFilter cfg.excludeFilter acc 0)
    es

/-- Source `deserialize(form, data, options)`: run the special-handler
dispatch (through the buggy call site, see `coerceTableToOptions`), then the
generic loop.  Returns the updated form and the handler invocation trace. -/
def deserialize (form : Form) (data : FormData) (cfg : Config) : Form × HTrace :=
  let sh :=
    match cfg.valueFunctions with
    | some vfs => applySpecialHandlers data form (coerceTableToOptions vfs)
    | none => ([], form, [])
  ({ sh.2.1 with elements := deserializeGeneric data sh.1 cfg sh.2.1.elements },
   sh.2.2)

/-- The durable key-value store (localStorage / sessionStorage): an
association list from string key to the stored record.  JSON encode/decode is
modelled as the identity on `FormData`, since every claim concerns which key
holds which record, not the byte encoding. -/
abbrev Store := List (String × FormData)

def getItemS : Store → String → Option FormData
  | [], _ => none
  | p :: rest, k => if p.1 == k then some p.2 else getItemS rest k

def setItem : Store → String → FormData → Store
  | [], k, v => [(k, v)]
  | p :: rest, k, v =>
    if p.1 == k then (k, v) :: rest else p :: setItem rest k v

def removeItem : Store → String → Store
  | [], _ => []
  | p :: rest, k =>
    if p.1 == k then removeItem rest k else p :: removeItem rest k

/-- Source `getStorageKey(form, uuid)`: throws unless the uuid or the form id
is non-empty (JS `!uuid` is true for `null`/`undefined`/`""`); otherwise
`"form#"` + (uuid if truthy, else form id). -/
def uuidVal : Option String → String
  | some s => s
  | none => ""

def getStorageKey (form : Form) (uuid : Option String) : Except String String :=
  if uuidVal uuid == "" && form.id == "" then
    .error "form persistence requires a form id or uuid"
  else
    .ok ("form#" ++ (if !(uuidVal uuid == "") then uuidVal uuid else form.id))

/-- Source `save(form, options)` acting on the selected store: serialize and
write under the computed key; a key-computation error propagates (the
exception escapes before any write). -/
def save (form : Form) (cfg : Config) (st : Store) : Except String Store :=
  match getStorageKey form cfg.uuid with
  | .ok k => .ok (setItem st k (serialize form cfg))
  | .error e => .error e

/-- Source `clearStorage(form, options)` on the selected store. -/
def clearStorage (form : Form) (cfg : Config) (st : Store) : Except String Store :=
  match getStorageKey form cfg.uuid with
  | .ok k => .ok (removeItem st k)
  | .error e => .error e

/-- Source `load(form, options)` on the selected store: read the key; if a
record is present, deserialize it into the form; absence is a no-op. -/
def load (form : Form) (cfg : Config) (st : Store) : Except String Form :=
  match getStorageKey form cfg.uuid with
  | .error e => .error e
  | .ok k =>
    match getItemS st k with
    | some data => .ok (deserialize form data cfg).1
    | none => .ok form

/-- The listener state of an auto-persist session created by `persist`.
`popstateArmed`, `beforeunloadArmed`, `unloadArmed` are the three window
save-trigger listeners; `submitListener` is the form submit listener added
when `saveOnSubmit` is false (and never removed by any source path).  The
two stores model `localStorage` and `sessionStorage`; which one a save or
clear touches is decided per call by `useSessionStorage`. -/
structure Session where
  form : Form
  cfg : Config
  localStore : Store
  sessionStore : Store
  popstateArmed : Bool
  beforeunloadArmed : Bool
  unloadArmed : Bool
  submitListener : Bool

/-- The store `save`/`load`/`clearStorage` select for this session's config. -/
def selStore (s : Session) : Store :=
  if s.cfg.useSessionStorage then s.sessionStore else s.localStore

def putSelStore (s : Session) (st : Store) : Session :=
  if s.cfg.useSessionStorage then { s with sessionStore := st }
  else { s with localStore := st }

/-- The `saveForm` closure: run `save`; an exception escapes the listener
without writing anything. -/
def doSave (s : Session) : Session :=
  match save s.form s.cfg (selStore s) with
  | .ok st => putSelStore s st
  | .error _ => s

/-- The submit handler body calls `clearStorage`; an exception leaves the
store untouched. -/
def doClear (s : Session) : Session :=
  match clearStorage s.form s.cfg (selStore s) with
  | .ok st => putSelStore s st
  | .error _ => s

/-- The lifecycle signals a session reacts to, plus invoking the disposer
returned by `persist`. -/
inductive Ev where
  | popstate
  | beforeunload
  | unload
  | submit
  | dispose
deriving DecidableEq, Repr

/-- One signal delivery, following `persist` (source lines 28-55):
`popstate`/`unload` save when their listener is attached; `beforeunload`
first detaches the unload listener, then saves; `submit` (when the submit
listener was installed, i.e. `saveOnSubmit` was false) detaches the three
window listeners and clears storage — the submit listener itself is never
detached; the disposer saves once, then detaches the three window listeners
(and only those). -/
def step (s : Session) : Ev → Session
  | .popstate => if s.popstateArmed then doSave s else s
  | .beforeunload =>
    if s.beforeunloadArmed then doSave { s with unloadArmed := false } else s
  | .unload => if s.unloadArmed then doSave s else s
  | .submit =>
    if s.submitListener then
      doClear { s with popstateArmed := false, beforeunloadArmed := false,
                       unloadArmed := false }
    else s
  | .dispose =>
    { doSave s with popstateArmed := false, beforeunloadArmed := false,
                    unloadArmed := false }

/-- Source `persist(form, options)`: the `saveOnSubmit: false` default merge
is the `Config` field default here.  Run `load` (an exception there escapes
before any listener is attached), then attach the three window listeners, and
the submit listener when `saveOnSubmit` is false. -/
def persist (form : Form) (cfg : Config) (ls ss : Store) :
    Except String Session :=
  match load form cfg (if cfg.useSessionStorage then ss else ls) with
  | .error e => .error e
  | .ok f =>
    .ok { form := f, cfg := cfg, localStore := ls, sessionStore := ss,
          popstateArmed := true, beforeunloadArmed := true,
          unloadArmed := true, submitListener := !cfg.saveOnSubmit }

/-! Concrete sample data used by counterexamples and witnesses. -/

/-- A text input holding value `v`. -/
def textInput (name v : String) : Element :=
  { tag := .input, type := "text", name := name, value := v,
    checked := false, multiple := false, options := [] }

/-- A checkbox with checked state `b`. -/
def checkboxInput (name : String) (b : Bool) : Element :=
  { tag := .input, type := "checkbox", name := name, value := "on",
    checked := b, multiple := false, options := [] }

/-- A password input holding value `v`. -/
def passwordInput (name v : String) : Element :=
  { tag := .input, type := "password", name := name, value := v,
    checked := false, multiple := false, options := [] }

/-- A file input holding value `v`. -/
def fileInput (name v : String) : Element :=
  { tag := .input, type := "file", name := name, value := v,
    checked := false, multiple := false, options := [] }

/-- The round-trip form of §8 of the spec: a text field `name` holding `v`, a
checkbox `agree` with checked state `b`, and a multi-select `color` with
options red and blue selected and green unselected. -/
def rtForm (v : String) (b : Bool) : Form :=
  { id := "f", elements := [
      textInput "name" v,
      checkboxInput "agree" b,
      { tag := .select, type := "select-multiple", name := "color", value := "",
        checked := false, multiple := true,
        options := [⟨"red", true⟩, ⟨"blue", true⟩, ⟨"green", false⟩] } ] }

/-- The identical blank copy of `rtForm`: empty text, unchecked checkbox, no
option selected. -/
def rtBlank : Form :=
  { id := "f", elements := [
      textInput "name" "",
      checkboxInput "agree" false,
      { tag := .select, type := "select-multiple", name := "color", value := "",
        checked := false, multiple := true,
        options := [⟨"red", false⟩, ⟨"blue", false⟩, ⟨"green", false⟩] } ] }

/-- A sample handler with an observable side effect (appends "!" to the form
id) for exercising the special-handler dispatch. -/
def hX : Form → Val → Form := fun f _ => { f with id := f.id ++ "!" }

/-- A form with a single text element named `x`. -/
def c1Form : Form := { id := "f", elements := [textInput "x" ""] }

/-- A record holding `x: ["v1","v2"]`. -/
def c1Data : FormData := [("x", [.str "v1", .str "v2"])]

/-- A configuration registering `hX` as the special handler for `x`. -/
def c1Cfg : Config := { valueFunctions := some [("x", hX)] }

/-- A sample auto-persist session on a form with id "myForm", default
configuration, empty stores, all listeners attached (as `persist` leaves
them with `saveOnSubmit` false). -/
def sessionA : Session :=
  { form := { id := "myForm", elements := [textInput "a" "hello"] },
    cfg := {}, localStore := [], sessionStore := [],
    popstateArmed := true, beforeunloadArmed := true, unloadArmed := true,
    submitListener := true }

/-- A form with a text field plus a password and a file input. -/
def secretFormA : Form :=
  { id := "f", elements := [textInput "user" "alice",
      passwordInput "pw" "hunter2", fileInput "doc" "a.txt"] }

/-- The same form with different password and file contents. -/
def secretFormB : Form :=
  { id := "f", elements := [textInput "user" "alice",
      passwordInput "pw" "letmein", fileInput "doc" "b.bin"] }

/-! Helper lemmas about the store and the session machine. -/

theorem getItemS_setItem_self (st : Store) (k : String) (v : FormData) :
    getItemS (setItem st k v) k = some v := by
  induction st with
  | nil => simp [setItem, getItemS]
  | cons p rest ih =>
    by_cases hp : p.1 == k
    · simp [setItem, getItemS, hp]
    · simp [setItem, getItemS, hp, ih]

theorem getItemS_removeItem_self (st : Store) (k : String) :
    getItemS (removeItem st k) k = none := by
  induction st with
  | nil => rfl
  | cons p rest ih =>
    by_cases hp : p.1 == k
    · simpa [removeItem, hp] using ih
    · simpa [removeItem, getItemS, hp] using ih

theorem putSelStore_fields (s : Session) (st : Store) :
    (putSelStore s st).form = s.form ∧ (putSelStore s st).cfg = s.cfg
    ∧ (putSelStore s st).popstateArmed = s.popstateArmed
    ∧ (putSelStore s st).beforeunloadArmed = s.beforeunloadArmed
    ∧ (putSelStore s st).unloadArmed = s.unloadArmed
    ∧ (putSelStore s st).submitListener = s.submitListener := by
  unfold putSelStore; split <;> exact ⟨rfl, rfl, rfl, rfl, rfl, rfl⟩

theorem selStore_putSelStore (s : Session) (st : Store) :
    selStore (putSelStore s st) = st := by
  unfold selStore putSelStore; split <;> simp_all

theorem doSave_eq (s : Session) (k : String)
    (hk : getStorageKey s.form s.cfg.uuid = .ok k) :
    doSave s = putSelStore s (setItem (selStore s) k (serialize s.form s.cfg)) := by
  unfold doSave save
  rw [hk]

theorem doClear_eq (s : Session) (k : String)
    (hk : getStorageKey s.form s.cfg.uuid = .ok k) :
    doClear s = putSelStore s (removeItem (selStore s) k) := by
  unfold doClear clearStorage
  rw [hk]

theorem doSave_effects (s : Session) (k : String)
    (hk : getStorageKey s.form s.cfg.uuid = .ok k) :
    (doSave s).form = s.form ∧ (doSave s).cfg = s.cfg
    ∧ (doSave s).popstateArmed = s.popstateArmed
    ∧ (doSave s).beforeunloadArmed = s.beforeunloadArmed
    ∧ (doSave s).unloadArmed = s.unloadArmed
    ∧ (doSave s).submitListener = s.submitListener
    ∧ selStore (doSave s) = setItem (selStore s) k (serialize s.form s.cfg) := by
  rw [doSave_eq s k hk]
  have h := putSelStore_fields s (setItem (selStore s) k (serialize s.form s.cfg))
  exact ⟨h.1, h.2.1, h.2.2.1, h.2.2.2.1, h.2.2.2.2.1, h.2.2.2.2.2,
    selStore_putSelStore _ _⟩

theorem doClear_effects (s : Session) (k : String)
    (hk : getStorageKey s.form s.cfg.uuid = .ok k) :
    (doClear s).form = s.form ∧ (doClear s).cfg = s.cfg
    ∧ (doClear s).popstateArmed = s.popstateArmed
    ∧ (doClear s).beforeunloadArmed = s.beforeunloadArmed
    ∧ (doClear s).unloadArmed = s.unloadArmed
    ∧ (doClear s).submitListener = s.submitListener
    ∧ selStore (doClear s) = removeItem (selStore s) k := by
  rw [doClear_eq s k hk]
  have h := putSelStore_fields s (removeItem (selStore s) k)
  exact ⟨h.1, h.2.1, h.2.2.1, h.2.2.2.1, h.2.2.2.2.1, h.2.2.2.2.2,
    selStore_putSelStore _ _⟩

theorem step_popstate_armed (s : Session) (h : s.popstateArmed = true) :
    step s .popstate = doSave s := by
  simp [step, h]

theorem step_popstate_unarmed (s : Session) (h : s.popstateArmed = false) :
    step s .popstate = s := by
  simp [step, h]

theorem step_beforeunload_unarmed (s : Session)
    (h : s.beforeunloadArmed = false) :
    step s .beforeunload = s := by
  simp [step, h]

theorem step_unload_unarmed (s : Session) (h : s.unloadArmed = false) :
    step s .unload = s := by
  simp [step, h]

theorem step_submit_effects (s : Session) (k : String)
    (h : s.submitListener = true)
    (hk : getStorageKey s.form s.cfg.uuid = .ok k) :
    (step s .submit).popstateArmed = false
    ∧ (step s .submit).beforeunloadArmed = false
    ∧ (step s .submit).unloadArmed = false
    ∧ (step s .submit).submitListener = true
    ∧ (step s .submit).form = s.form
    ∧ (step s .submit).cfg = s.cfg
    ∧ selStore (step s .submit) = removeItem (selStore s) k := by
  have hstep : step s .submit =
      doClear { s with
                popstateArmed := false, beforeunloadArmed := false,
                unloadArmed := false } := by
    simp [step, h]
  rw [hstep]
  have hc := doClear_effects
    { s with
      popstateArmed := false, beforeunloadArmed := false,
      unloadArmed := false } k hk
  exact ⟨hc.2.2.1, hc.2.2.2.1, hc.2.2.2.2.1, hc.2.2.2.2.2.1.trans h,
    hc.1, hc.2.1, hc.2.2.2.2.2.2⟩

theorem step_dispose_effects (s : Session) (k : String)
    (hk : getStorageKey s.form s.cfg.uuid = .ok k) :
    (step s .dispose).popstateArmed = false
    ∧ (step s .dispose).beforeunloadArmed = false
    ∧ (step s .dispose).unloadArmed = false
    ∧ (step s .dispose).submitListener = s.submitListener
    ∧ (step s .dispose).form = s.form
    ∧ (step s .dispose).cfg = s.cfg
    ∧ selStore (step s .dispose) = setItem (selStore s) k (serialize s.form s.cfg) := by
  have hs := doSave_effects s k hk
  exact ⟨rfl, rfl, rfl, hs.2.2.2.2.2.1, hs.1, hs.2.1, hs.2.2.2.2.2.2⟩

/-! Claim theorems. -/

/-- C1 (code bug): with `valueFunctions = {x: hX}` and the record
`x: ["v1","v2"]`, `deserialize` never invokes the handler (empty invocation
trace, no handler side effect on the form) and instead the generic path
writes "v1" into the element named `x` — the claim says the handler runs
exactly twice and the generic path never touches `x`.  The third conjunct
shows `applySpecialHandlers` itself, called with the options record its
signature declares, would have invoked the handler once per value; the bug
is the call site (source line 182) passing the raw handler table as the
options record. -/
theorem C1_handler_never_invoked :
    (deserialize c1Form c1Data c1Cfg).2 = []
    ∧ (deserialize c1Form c1Data c1Cfg).1 =
        { id := "f", elements := [textInput "x" "v1"] }
    ∧ (applySpecialHandlers c1Data c1Form c1Cfg).2.2 =
        [("x", .str "v1"), ("x", .str "v2")]
    ∧ (applySpecialHandlers c1Data c1Form c1Cfg).2.1.id = "f!!"
    ∧ (applySpecialHandlers c1Data c1Form c1Cfg).1 = ["x"] :=
  ⟨rfl, rfl, rfl, rfl, rfl⟩

/-- C2 (confirmed): serializing a form with text field `name` holding a
non-empty value `v`, checkbox `agree` with checked state `b`, and
multi-select `color` with red and blue selected, then deserializing the
record into the identical blank copy, reproduces exactly the original
observable field states (the resulting form equals the original). -/
theorem C2_roundtrip (v : String) (b : Bool) (hv : v ≠ "") :
    (deserialize rtBlank (serialize (rtForm v b) {}) {}).1 = rtForm v b := by
  have hser : serialize (rtForm v b) {} =
      [("name", [.str v]), ("agree", [.bool b]),
       ("color", [.str "red", .str "blue"])] := by
    simp [serialize, rtForm, textInput, checkboxInput, serializeElement,
          isSecretOrFile, isNameFiltered, isElementFiltered, pushToArray,
          hasKey, lookupFD, hv]
  rw [hser]
  simp [deserialize, deserializeGeneric, rtBlank, rtForm, textInput,
        checkboxInput, applyToMatching, applyValues, isNameFiltered,
        isElementFiltered, getStr, valToStr, truthy, includesStr]

/-- Witness for C2 with value "alice" and a checked checkbox. -/
theorem C2_roundtrip_witness :
    (deserialize rtBlank (serialize (rtForm "alice" true) {}) {}).1 =
      rtForm "alice" true :=
  C2_roundtrip "alice" true (by decide)

/-- C3 (confirmed): `save` on a form with id "myForm" and no uuid — absent
(`none`) or empty (`some ""`), both falsy to the source's `!uuid` check, as
captured by `uuidVal cfg.uuid = ""` — writes the serialized record under key
"form#myForm"; with uuid "custom" it writes under "form#custom" whatever the
form id; and when neither a non-empty uuid nor a non-empty form id is
available, `getStorageKey` returns the configuration error (there is no
fallback key). -/
theorem C3_key_derivation :
    (∀ (f : Form) (cfg : Config) (st : Store), f.id = "myForm" →
        uuidVal cfg.uuid = "" →
        save f cfg st = .ok (setItem st "form#myForm" (serialize f cfg)))
    ∧ (∀ (f : Form) (cfg : Config) (st : Store), cfg.uuid = some "custom" →
        save f cfg st = .ok (setItem st "form#custom" (serialize f cfg)))
    ∧ (∀ (f : Form) (uuid : Option String), uuidVal uuid = "" → f.id = "" →
        getStorageKey f uuid =
          .error "form persistence requires a form id or uuid") := by
  refine ⟨?_, ?_, ?_⟩
  · intro f cfg st hid hu
    simp [save, getStorageKey, hid, hu]
  · intro f cfg st hu
    simp [save, getStorageKey, uuidVal, hu]
  · intro f uuid hu hid
    simp [getStorageKey, hu, hid]

/-- Witness for C3 at a concrete form and store, for both shapes of a falsy
uuid: absent (`none`, the default) and empty (`some ""`). -/
theorem C3_key_derivation_witness :
    save { id := "myForm", elements := [] } {} [] =
      .ok (setItem [] "form#myForm"
        (serialize { id := "myForm", elements := [] } {}))
    ∧ save { id := "myForm", elements := [] } { uuid := some "" } [] =
      .ok (setItem [] "form#myForm"
        (serialize { id := "myForm", elements := [] } { uuid := some "" })) :=
  ⟨C3_key_derivation.1 { id := "myForm", elements := [] } {} [] rfl rfl,
   C3_key_derivation.1 { id := "myForm", elements := [] }
     { uuid := some "" } [] rfl rfl⟩

/-- Counterexample for C4: with uuid "custom" and form id "myForm" both
non-empty (so NOT exactly one of them is non-empty), key computation
succeeds with "form#custom" instead of raising an error, refuting the claim
as stated. -/
theorem C4_exactly_one_cex :
    ("custom" ≠ "" ∧ "myForm" ≠ "")
    ∧ getStorageKey { id := "myForm", elements := [] } (some "custom") =
        .ok "form#custom" :=
  ⟨⟨by decide, by decide⟩, rfl⟩

/-- C4 (corrected): key computation fails exactly when BOTH the
caller-supplied uuid and the form identifier are empty; at least one
non-empty suffices (and the uuid takes precedence when both are non-empty,
per C3). -/
theorem C4_key_failure_iff (f : Form) (uuid : Option String) :
    getStorageKey f uuid = .error "form persistence requires a form id or uuid"
      ↔ (uuidVal uuid = "" ∧ f.id = "") := by
  unfold getStorageKey
  by_cases hu : uuidVal uuid = ""
  · by_cases hid : f.id = "" <;> simp [hu, hid]
  · simp [hu]

/-- C7 (confirmed): the name filter rejects every empty name; rejects any
name in `exclude` (deny wins over allow); rejects any name missing from a
non-empty `include`; with include=["a","b"], exclude=["b"], only "a"
participates; and the element filter rejects whenever `excludeFilter`
matches, even when `includeFilter` matches too. -/
theorem C7_filter_precedence :
    (∀ incl excl : List String, isNameFiltered "" incl excl = true)
    ∧ (∀ (n : String) (incl excl : List String), excl.contains n = true →
        isNameFiltered n incl excl = true)
    ∧ (∀ (n : String) (incl excl : List String), incl ≠ [] →
        incl.contains n = false → isNameFiltered n incl excl = true)
    ∧ isNameFiltered "a" ["a", "b"] ["b"] = false
    ∧ isNameFiltered "b" ["a", "b"] ["b"] = true
    ∧ (∀ (e : Element) (inf exf : Element → Bool), exf e = true →
        isElementFiltered e (some inf) (some exf) = true) := by
  refine ⟨?_, ?_, ?_, by decide, by decide, ?_⟩
  · intro incl excl; simp [isNameFiltered]
  · intro n incl excl h
    have h' : n ∈ excl := by simpa using h
    unfold isNameFiltered
    by_cases h0 : n == "" <;> simp [h0, h, h']
  · intro n incl excl hne hc
    have hc' : n ∉ incl := by simpa using hc
    unfold isNameFiltered
    by_cases h0 : n == "" <;>
      by_cases h1 : excl.contains n <;>
        simp [h0, h1, hc, hc', List.isEmpty_iff, hne]
  · intro e inf exf h
    simp [isElementFiltered, h]

/-- C5 (confirmed): firing `submit` after a prior save (here a `popstate`
save, which leaves the key present) on a default-configuration session
(submit listener installed, i.e. `saveOnSubmit` false) tears down all three
save triggers and removes the storage key; each subsequent lifecycle signal
leaves the session — and hence the store — completely unchanged. -/
theorem C5_submit_discard (s : Session) (k : String)
    (hpop : s.popstateArmed = true) (hsub : s.submitListener = true)
    (hk : getStorageKey s.form s.cfg.uuid = .ok k) :
    getItemS (selStore (step s .popstate)) k = some (serialize s.form s.cfg)
    ∧ (step (step s .popstate) .submit).popstateArmed = false
    ∧ (step (step s .popstate) .submit).beforeunloadArmed = false
    ∧ (step (step s .popstate) .submit).unloadArmed = false
    ∧ getItemS (selStore (step (step s .popstate) .submit)) k = none
    ∧ step (step (step s .popstate) .submit) .popstate =
        step (step s .popstate) .submit
    ∧ step (step (step s .popstate) .submit) .beforeunload =
        step (step s .popstate) .submit
    ∧ step (step (step s .popstate) .submit) .unload =
        step (step s .popstate) .submit := by
  have h1 : step s .popstate = doSave s := step_popstate_armed s hpop
  have hs1 := doSave_effects s k hk
  have hg1 : getItemS (selStore (step s .popstate)) k =
      some (serialize s.form s.cfg) := by
    rw [h1, hs1.2.2.2.2.2.2]; exact getItemS_setItem_self _ _ _
  have h1sub : (step s .popstate).submitListener = true := by
    rw [h1, hs1.2.2.2.2.2.1]; exact hsub
  have hk1 : getStorageKey (step s .popstate).form
      (step s .popstate).cfg.uuid = .ok k := by
    rw [h1, hs1.1, hs1.2.1]; exact hk
  have h2 := step_submit_effects (step s .popstate) k h1sub hk1
  have h2get : getItemS (selStore (step (step s .popstate) .submit)) k = none := by
    rw [h2.2.2.2.2.2.2]
    have hsel : selStore (step s .popstate) =
        setItem (selStore s) k (serialize s.form s.cfg) := by
      rw [h1]; exact hs1.2.2.2.2.2.2
    exact getItemS_removeItem_self _ _
  refine ⟨hg1, h2.1, h2.2.1, h2.2.2.1, h2get, ?_, ?_, ?_⟩
  · exact step_popstate_unarmed _ h2.1
  · exact step_beforeunload_unarmed _ h2.2.1
  · exact step_unload_unarmed _ h2.2.2.1

/-- Witness for C5 on the concrete session `sessionA` with key
"form#myForm". -/
theorem C5_submit_discard_witness :
    getItemS (selStore (step (step sessionA .popstate) .submit))
      "form#myForm" = none :=
  (C5_submit_discard sessionA "form#myForm" rfl rfl rfl).2.2.2.2.1

/-- C10 (confirmed): the disposer returned by `persist` detaches only the
three window save triggers and leaves the submit listener attached (it does
save once, so the key is present right after disposal); a submit signal
fired after the disposer has run therefore still clears the storage key. -/
theorem C10_disposer_gap (s : Session) (k : String)
    (hsub : s.submitListener = true)
    (hk : getStorageKey s.form s.cfg.uuid = .ok k) :
    (step s .dispose).submitListener = true
    ∧ (step s .dispose).popstateArmed = false
    ∧ (step s .dispose).beforeunloadArmed = false
    ∧ (step s .dispose).unloadArmed = false
    ∧ getItemS (selStore (step s .dispose)) k = some (serialize s.form s.cfg)
    ∧ getItemS (selStore (step (step s .dispose) .submit)) k = none := by
  have hd := step_dispose_effects s k hk
  have hdsub : (step s .dispose).submitListener = true := by
    rw [hd.2.2.2.1]; exact hsub
  have hdget : getItemS (selStore (step s .dispose)) k =
      some (serialize s.form s.cfg) := by
    rw [hd.2.2.2.2.2.2]; exact getItemS_setItem_self _ _ _
  have hkd : getStorageKey (step s .dispose).form
      (step s .dispose).cfg.uuid = .ok k := by
    rw [hd.2.2.2.2.1, hd.2.2.2.2.2.1]; exact hk
  have h2 := step_submit_effects (step s .dispose) k hdsub hkd
  have h2get : getItemS (selStore (step (step s .dispose) .submit)) k = none := by
    rw [h2.2.2.2.2.2.2]; exact getItemS_removeItem_self _ _
  exact ⟨hdsub, hd.1, hd.2.1, hd.2.2.1, hdget, h2get⟩

/-- Witness for C10 on the concrete session `sessionA`. -/
theorem C10_disposer_gap_witness :
    (step sessionA .dispose).submitListener = true
    ∧ getItemS (selStore (step (step sessionA .dispose) .submit))
        "form#myForm" = none :=
  ⟨(C10_disposer_gap sessionA "form#myForm" rfl rfl).1,
   (C10_disposer_gap sessionA "form#myForm" rfl rfl).2.2.2.2.2⟩

/-- Witness for C7 at concrete names, lists and filters. -/
theorem C7_filter_precedence_witness :
    isNameFiltered "b" ["a", "b"] ["b"] = true
    ∧ isElementFiltered (textInput "b" "v") (some fun _ => true)
        (some fun _ => true) = true :=
  ⟨C7_filter_precedence.2.1 "b" ["a", "b"] ["b"] (by decide),
   C7_filter_precedence.2.2.2.2.2 (textInput "b" "v") (fun _ => true)
     (fun _ => true) rfl⟩


/-! Lemmas for the secrecy claim: password/file elements are skipped before
any filtering, so the serializer is blind to them. -/

theorem serializeElement_secret (cfg : Config) (d : FormData) (e : Element)
    (h : isSecretOrFile e = true) : serializeElement cfg d e = d := by
  unfold serializeElement
  rw [if_pos h]

theorem serialize_foldl_filter_secret (cfg : Config) (es : List Element) :
    ∀ d : FormData, es.foldl (serializeElement cfg) d =
      (es.filter (fun e => !isSecretOrFile e)).foldl (serializeElement cfg) d := by
  induction es with
  | nil => intro d; rfl
  | cons e rest ih =>
    intro d
    by_cases he : isSecretOrFile e = true
    · simp only [List.foldl_cons, List.filter_cons, he, Bool.not_true,
        Bool.false_eq_true, if_false]
      rw [serializeElement_secret cfg d e he]
      exact ih d
    · have he' : isSecretOrFile e = false := by
        cases h : isSecretOrFile e
        · rfl
        · exact absurd h he
      simp only [List.foldl_cons, List.filter_cons, he', Bool.not_false, if_true]
      exact ih (serializeElement cfg d e)

theorem serialize_foldl_congr_secret (cfg : Config) (es fs : List Element)
    (h : List.Forall₂
      (fun a b => a = b ∨ (isSecretOrFile a = true ∧ isSecretOrFile b = true))
      es fs) :
    ∀ d : FormData,
      es.foldl (serializeElement cfg) d = fs.foldl (serializeElement cfg) d := by
  induction h with
  | nil => intro d; rfl
  | cons hab htail ih =>
    intro d
    simp only [List.foldl_cons]
    rcases hab with rfl | ⟨ha, hb⟩
    · exact ih _
    · rw [serializeElement_secret cfg d _ ha, serializeElement_secret cfg d _ hb]
      exact ih d

/-- C6 (confirmed): for every filter configuration, the serialized record
equals that of the form with all password/file inputs deleted (no value they
hold ever contributes), and it is invariant under arbitrarily changing the
password/file elements (elementwise: equal, or both password/file-kind) —
their contents never flow into the output. -/
theorem C6_secret_exclusion :
    (∀ (cfg : Config) (f : Form),
      serialize f cfg =
        serialize
          { f with elements := f.elements.filter (fun e => !isSecretOrFile e) }
          cfg)
    ∧ (∀ (cfg : Config) (f g : Form),
      List.Forall₂
        (fun a b => a = b ∨ (isSecretOrFile a = true ∧ isSecretOrFile b = true))
        f.elements g.elements →
      serialize f cfg = serialize g cfg) := by
  constructor
  · intro cfg f
    exact serialize_foldl_filter_secret cfg f.elements []
  · intro cfg f g h
    exact serialize_foldl_congr_secret cfg f.elements g.elements h []

/-- Witness for C6: two concrete forms differing only in password and file
contents serialize to the same record. -/
theorem C6_secret_exclusion_witness :
    serialize secretFormA {} = serialize secretFormB {} :=
  C6_secret_exclusion.2 {} secretFormA secretFormB
    (.cons (Or.inl rfl)
      (.cons (Or.inr ⟨rfl, rfl⟩) (.cons (Or.inr ⟨rfl, rfl⟩) .nil)))

/-! Lemmas for the empty-omission claim. -/

theorem pushToArray_empty (d : FormData) (k : String) :
    pushToArray d k (.str "") = d := by
  unfold pushToArray
  rw [if_pos rfl]

theorem lookupFD_cons (q : String × List Val) (rest : FormData) (k : String) :
    lookupFD (q :: rest) k = if q.1 == k then some q.2 else lookupFD rest k := by
  unfold lookupFD
  by_cases hq : (q.1 == k) = true
  · rw [@List.find?_cons_of_pos _ (fun p => p.1 == k) q rest hq, if_pos hq]
  · rw [@List.find?_cons_of_neg _ (fun p => p.1 == k) q rest
      (by simpa using hq), if_neg hq]

theorem pushToArray_cons_ne (q : String × List Val) (rest : FormData)
    (k : String) (v : Val) (hq : (q.1 == k) = false) :
    pushToArray (q :: rest) k v = q :: pushToArray rest k v := by
  unfold pushToArray
  by_cases hv : v = .str ""
  · rw [if_pos hv, if_pos hv]
  · rw [if_neg hv, if_neg hv]
    have hkey : hasKey (q :: rest) k = hasKey rest k := by
      unfold hasKey
      rw [lookupFD_cons, if_neg (by simp [hq])]
    rw [hkey]
    by_cases hk : hasKey rest k = true
    · rw [if_pos hk, if_pos hk, List.map_cons, if_neg (by simp [hq])]
    · rw [if_neg hk, if_neg hk, List.cons_append]

theorem lookupFD_pushToArray_self (d : FormData) (k : String) (v : Val)
    (hv : v ≠ .str "") :
    lookupFD (pushToArray d k v) k =
      some ((lookupFD d k).getD [] ++ [v]) := by
  induction d with
  | nil =>
    unfold pushToArray hasKey lookupFD
    rw [if_neg hv]
    simp
  | cons q rest ih =>
    by_cases hq : (q.1 == k) = true
    · have hkey : hasKey (q :: rest) k = true := by
        unfold hasKey
        rw [lookupFD_cons, if_pos hq]
        rfl
      unfold pushToArray
      rw [if_neg hv, if_pos hkey, List.map_cons, if_pos hq]
      rw [lookupFD_cons, lookupFD_cons]
      simp [hq]
    · have hq' : (q.1 == k) = false := by
        cases h : q.1 == k
        · rfl
        · exact absurd h hq
      rw [pushToArray_cons_ne q rest k v hq', lookupFD_cons,
        if_neg (by simp [hq']), lookupFD_cons, if_neg (by simp [hq'])]
      exact ih

theorem serializeElement_empty_input (cfg : Config) (d : FormData)
    (e : Element) (h1 : e.tag = .input) (h2 : e.type ≠ "checkbox")
    (hval : e.value = "") : serializeElement cfg d e = d := by
  unfold serializeElement
  split
  · rfl
  · split
    · rfl
    · simp only [h1]
      by_cases hr : (e.type == "radio") = true
      · simp [hr, hval, pushToArray_empty]
      · have hc : (e.type == "checkbox") = false := by simpa using h2
        simp [hr, hc, hval, pushToArray_empty]

theorem serializeElement_empty_textarea (cfg : Config) (d : FormData)
    (e : Element) (h1 : e.tag = .textarea) (hval : e.value = "") :
    serializeElement cfg d e = d := by
  unfold serializeElement
  have hs : isSecretOrFile e = false := by simp [isSecretOrFile, h1]
  simp [hs, h1, hval, pushToArray_empty]

theorem pushToArray_no_empties (d : FormData) (k : String) (v : Val)
    (hd : ∀ p ∈ d, p.2 ≠ [] ∧ Val.str "" ∉ p.2) :
    ∀ p ∈ pushToArray d k v, p.2 ≠ [] ∧ Val.str "" ∉ p.2 := by
  intro p hp
  unfold pushToArray at hp
  by_cases hv : v = .str ""
  · rw [if_pos hv] at hp; exact hd p hp
  · rw [if_neg hv] at hp
    by_cases hk : hasKey d k = true
    · rw [if_pos hk] at hp
      rcases List.mem_map.mp hp with ⟨q, hq, rfl⟩
      by_cases hqk : (q.1 == k) = true
      · rw [if_pos hqk]
        refine ⟨by simp, ?_⟩
        intro hmem
        rcases List.mem_append.mp hmem with hm | hm
        · exact (hd q hq).2 hm
        · rcases List.mem_singleton.mp hm with rfl
          exact hv rfl
      · rw [if_neg hqk]
        exact hd q hq
    · rw [if_neg hk] at hp
      rcases List.mem_append.mp hp with hm | hm
      · exact hd p hm
      · rcases List.mem_singleton.mp hm with rfl
        refine ⟨by simp, ?_⟩
        intro hmem
        rcases List.mem_singleton.mp hmem with rfl
        exact hv rfl

theorem foldl_options_no_empties (name : String) (os : List Opt) :
    ∀ d : FormData, (∀ p ∈ d, p.2 ≠ [] ∧ Val.str "" ∉ p.2) →
      ∀ p ∈ os.foldl
        (fun d o => if o.selected then pushToArray d name (.str o.value) else d)
        d, p.2 ≠ [] ∧ Val.str "" ∉ p.2 := by
  induction os with
  | nil => intro d hd; exact hd
  | cons o rest ih =>
    intro d hd
    simp only [List.foldl_cons]
    apply ih
    by_cases ho : o.selected = true
    · rw [if_pos ho]; exact pushToArray_no_empties d name _ hd
    · rw [if_neg ho]; exact hd

theorem serializeElement_no_empties (cfg : Config) (e : Element)
    (d : FormData) (hd : ∀ p ∈ d, p.2 ≠ [] ∧ Val.str "" ∉ p.2) :
    ∀ p ∈ serializeElement cfg d e, p.2 ≠ [] ∧ Val.str "" ∉ p.2 := by
  unfold serializeElement
  repeat' split
  all_goals
    first
      | exact hd
      | exact pushToArray_no_empties _ _ _ hd
      | exact foldl_options_no_empties _ _ _ hd

theorem serialize_foldl_no_empties (cfg : Config) (es : List Element) :
    ∀ d : FormData, (∀ p ∈ d, p.2 ≠ [] ∧ Val.str "" ∉ p.2) →
      ∀ p ∈ es.foldl (serializeElement cfg) d, p.2 ≠ [] ∧ Val.str "" ∉ p.2 := by
  induction es with
  | nil => intro d hd; exact hd
  | cons e rest ih =>
    intro d hd
    simp only [List.foldl_cons]
    exact ih _ (serializeElement_no_empties cfg e d hd)

theorem lookupFD_mem (d : FormData) (k : String) (vs : List Val)
    (h : lookupFD d k = some vs) : ∃ p ∈ d, p.2 = vs := by
  unfold lookupFD at h
  cases hf : d.find? (fun p => p.1 == k) with
  | none => rw [hf] at h; cases h
  | some q =>
    rw [hf] at h
    cases h
    exact ⟨q, List.mem_of_find?_eq_some hf, rfl⟩

/-- C8 (confirmed): `pushToArray` drops the empty string; a text-like element
(non-checkbox input, or textarea) whose value is `""` contributes nothing to
the record; no key of a serialized record ever maps to an empty sequence or
contains an empty-string value; and an unfiltered checkbox always appends its
checked state — including `false` — to its name's sequence. -/
theorem C8_empty_omission :
    (∀ (d : FormData) (k : String), pushToArray d k (.str "") = d)
    ∧ (∀ (cfg : Config) (d : FormData) (e : Element),
        ((e.tag = .input ∧ e.type ≠ "checkbox") ∨ e.tag = .textarea) →
        e.value = "" → serializeElement cfg d e = d)
    ∧ (∀ (f : Form) (cfg : Config) (k : String) (vs : List Val),
        lookupFD (serialize f cfg) k = some vs →
        vs ≠ [] ∧ Val.str "" ∉ vs)
    ∧ (∀ (cfg : Config) (d : FormData) (e : Element),
        e.tag = .input → e.type = "checkbox" →
        isNameFiltered e.name cfg.incl cfg.excl = false →
        isElementFiltered e cfg.includeFilter cfg.excludeFilter = false →
        lookupFD (serializeElement cfg d e) e.name =
          some ((lookupFD d e.name).getD [] ++ [.bool e.checked])) := by
  refine ⟨pushToArray_empty, ?_, ?_, ?_⟩
  · intro cfg d e htag hval
    rcases htag with ⟨h1, h2⟩ | h1
    · exact serializeElement_empty_input cfg d e h1 h2 hval
    · exact serializeElement_empty_textarea cfg d e h1 hval
  · intro f cfg k vs h
    rcases lookupFD_mem _ _ _ h with ⟨p, hp, rfl⟩
    exact serialize_foldl_no_empties cfg f.elements [] (by simp) p hp
  · intro cfg d e h1 h2 hnf hef
    have hs : isSecretOrFile e = false := by
      simp [isSecretOrFile, h2]
    have hbody : serializeElement cfg d e =
        pushToArray d e.name (.bool e.checked) := by
      unfold serializeElement
      rw [if_neg (by simp [hs]), if_neg (by simp [hnf, hef])]
      simp only [h1, h2]
      rw [if_neg (by simp), if_pos (by simp)]
    rw [hbody]
    exact lookupFD_pushToArray_self d e.name (.bool e.checked) (by simp)

/-- Witness for C8: an empty text field contributes nothing; an unchecked
checkbox still contributes `false`. -/
theorem C8_empty_omission_witness :
    serializeElement {} [] (textInput "a" "") = []
    ∧ lookupFD (serializeElement {} [] (checkboxInput "agree" false)) "agree" =
        some [.bool false] :=
  ⟨C8_empty_omission.2.1 {} [] (textInput "a" "") (Or.inl ⟨rfl, by decide⟩) rfl,
   C8_empty_omission.2.2.2 {} [] (checkboxInput "agree" false) rfl rfl rfl rfl⟩

/-! Lemmas for the frame claim: the generic deserializer leaves alone every
element that does not match the processed name or is element-filtered. -/

theorem applyToMatching_skip (n : String) (vs : List Val)
    (inf exf : Option (Element → Bool)) :
    ∀ (es : List Element) (i j : Nat) (e : Element),
      es.get? j = some e →
      ((e.name == n) = false ∨ isElementFiltered e inf exf = true) →
      (applyToMatching n vs inf exf es i).get? j = some e := by
  intro es
  induction es with
  | nil => intro i j e h _; cases h
  | cons x rest ih =>
    intro i j e hj hcond
    cases j with
    | zero =>
      rw [List.get?_cons_zero] at hj
      injection hj with hj
      subst hj
      have hg : (x.name == n && !isElementFiltered x inf exf) = false := by
        rcases hcond with hc | hc <;> simp [hc]
      unfold applyToMatching
      rw [if_neg (by simp [hg])]
      exact List.get?_cons_zero
    | succ j' =>
      rw [List.get?_cons_succ] at hj
      unfold applyToMatching
      by_cases hg : (x.name == n && !isElementFiltered x inf exf) = true
      · rw [if_pos hg, List.get?_cons_succ]
        exact ih (i + 1) j' e hj hcond
      · rw [if_neg hg, List.get?_cons_succ]
        exact ih i j' e hj hcond

theorem deserializeGeneric_skip (cfg : Config) (handled : List String) :
    ∀ (entries : FormData) (es : List Element) (j : Nat) (e : Element),
      es.get? j = some e →
      (∀ p ∈ entries,
        isNameFiltered p.1 cfg.incl cfg.excl = true
        ∨ handled.contains p.1 = true
        ∨ (e.name == p.1) = false
        ∨ isElementFiltered e cfg.includeFilter cfg.excludeFilter = true) →
      (deserializeGeneric entries handled cfg es).get? j = some e := by
  intro entries
  induction entries with
  | nil => intro es j e hj _; exact hj
  | cons p rest ih =>
    intro es j e hj hcond
    have hp := hcond p (List.mem_cons_self p rest)
    have htail : ∀ q ∈ rest,
        isNameFiltered q.1 cfg.incl cfg.excl = true
        ∨ handled.contains q.1 = true
        ∨ (e.name == q.1) = false
        ∨ isElementFiltered e cfg.includeFilter cfg.excludeFilter = true :=
      fun q hq => hcond q (List.mem_cons_of_mem p hq)
    unfold deserializeGeneric
    simp only [List.foldl_cons]
    by_cases h1 : isNameFiltered p.1 cfg.incl cfg.excl = true
    · rw [if_pos h1]
      exact ih es j e hj htail
    · rw [if_neg h1]
      by_cases h2 : handled.contains p.1 = true
      · rw [if_pos h2]
        exact ih es j e hj htail
      · rw [if_neg h2]
        have hskip : (e.name == p.1) = false
            ∨ isElementFiltered e cfg.includeFilter cfg.excludeFilter = true := by
          rcases hp with hc | hc | hc | hc
          · exact absurd hc h1
          · exact absurd hc h2
          · exact Or.inl hc
          · exact Or.inr hc
        exact ih _ j e
          (applyToMatching_skip p.1 p.2 cfg.includeFilter cfg.excludeFilter
            es 0 j e hj hskip)
          htail

/-- C9 (confirmed frame property): with no `valueFunctions` configured,
`deserialize` leaves every element untouched whose name is not a key of the
record, or is name-filtered, or which is element-filtered; the form id is
untouched and no handler is invoked. -/
theorem C9_frame (form : Form) (data : FormData) (cfg : Config)
    (hvf : cfg.valueFunctions = none) (j : Nat) (e : Element)
    (hj : form.elements.get? j = some e)
    (hcond : hasKey data e.name = false
      ∨ isNameFiltered e.name cfg.incl cfg.excl = true
      ∨ isElementFiltered e cfg.includeFilter cfg.excludeFilter = true) :
    (deserialize form data cfg).1.elements.get? j = some e
    ∧ (deserialize form data cfg).1.id = form.id
    ∧ (deserialize form data cfg).2 = [] := by
  unfold deserialize
  rw [hvf]
  refine ⟨?_, rfl, rfl⟩
  show (deserializeGeneric data [] cfg form.elements).get? j = some e
  apply deserializeGeneric_skip cfg [] data form.elements j e hj
  intro p hp
  rcases hcond with hc | hc | hc
  · have hnone : lookupFD data e.name = none := by
      cases hl : lookupFD data e.name with
      | none => rfl
      | some vs =>
        exfalso
        unfold hasKey at hc
        rw [hl] at hc
        cases hc
    have hfind : data.find? (fun q => q.1 == e.name) = none := by
      unfold lookupFD at hnone
      cases hf : data.find? (fun q => q.1 == e.name) with
      | none => rfl
      | some q => rw [hf] at hnone; cases hnone
    have hne : ¬(p.1 == e.name) = true := List.find?_eq_none.mp hfind p hp
    refine Or.inr (Or.inr (Or.inl ?_))
    have : p.1 ≠ e.name := by simpa using hne
    simpa using Ne.symm this
  · by_cases hpe : (e.name == p.1) = true
    · have : e.name = p.1 := by simpa using hpe
      exact Or.inl (this ▸ hc)
    · refine Or.inr (Or.inr (Or.inl ?_))
      cases h : e.name == p.1
      · rfl
      · exact absurd h hpe
  · exact Or.inr (Or.inr (Or.inr hc))

/-- Witness for C9: a record whose only key matches no element leaves the
first element of the blank round-trip form untouched. -/
theorem C9_frame_witness :
    (deserialize rtBlank [("zzz", [Val.str "q"])] {}).1.elements.get? 0 =
      some (textInput "name" "") :=
  (C9_frame rtBlank [("zzz", [Val.str "q"])] {} rfl 0 (textInput "name" "")
    rfl (Or.inl rfl)).1

end Persistorm
